import Mathlib

/-!
Verification model of the aaisp-chaos repository: the CHAOS API client
(package chaos) and the Prometheus exporter (cmd/aaisp_exporter).

The Go code delegates timestamp handling to the standard time package with
the fixed layout "2006-01-02 15:04:05" and the Europe/London location.
The first part of this file is a shallow embedding of that machinery:
proleptic-Gregorian calendar conversions (Go computes the same functions
by cutting off 400/100/4-year cycles), the post-1995 Europe/London DST
rule from the IANA database (BST is in force from the last Sunday of
March 01:00 UTC to the last Sunday of October 01:00 UTC), Go's
wall-clock-to-instant resolution from time.Date, and Go's parser for the
fixed layout.  Integer division here is floor division (with nonnegative
remainders), which coincides with Go's truncated division on the
nonnegative operands Go's own routines produce by working in absolute
(unsigned) time.
-/

/-- Leap-year test, as in Go's time.isLeap. -/
def isLeap (y : Int) : Bool := y % 4 = 0 && (y % 100 ≠ 0 || y % 400 = 0)

/-- Days in a month, as in Go's time.daysIn. -/
def daysInMonth (y m : Int) : Int :=
  if m = 2 then (if isLeap y then 29 else 28)
  else if m = 4 ∨ m = 6 ∨ m = 9 ∨ m = 11 then 30 else 31

/-- Year of the March-based calendar containing the given civil month
    (January and February belong to the preceding March-based year). -/
def marchYear (y m : Int) : Int := if m ≤ 2 then y - 1 else y

/-- Month index in the March-based calendar: March = 0, ..., February = 11. -/
def marchMonthIdx (m : Int) : Int := if m ≤ 2 then m + 9 else m - 3

/-- Day of the March-based year, 0-based. -/
def marchDoy (m d : Int) : Int := (153 * marchMonthIdx m + 2) / 5 + d - 1

/-- Day count (relative to 0000-03-01) on which March-based year yr starts.
    Intended domain: yr ≥ 0. -/
def marchStart (yr : Int) : Int := 365 * yr + yr / 4 - yr / 100 + yr / 400

/-- Days since the Unix epoch (1970-01-01) of a proleptic Gregorian date
    (valid for dates from year 1 on). -/
def daysFromCivil (y m d : Int) : Int :=
  marchStart (marchYear y m) + marchDoy m d - 719468

def cfdMarchYear (g : Int) : Int :=
  if g < marchStart ((400 * g) / 146097) then (400 * g) / 146097 - 1
  else if marchStart ((400 * g) / 146097 + 1) ≤ g then (400 * g) / 146097 + 1
  else (400 * g) / 146097

def cfdDoy (g : Int) : Int := g - marchStart (cfdMarchYear g)

def cfdMp (g : Int) : Int := (5 * cfdDoy g + 2) / 153

def cfdMonth (g : Int) : Int := cfdMp g + (if cfdMp g < 10 then 3 else -9)

def cfdDay (g : Int) : Int := cfdDoy g - (153 * cfdMp g + 2) / 5 + 1

/-- Proleptic Gregorian date of a count of days since the Unix epoch
    (inverse of daysFromCivil on its intended domain; Go's time package
    computes the same function via its absDate routine). -/
def civilFromDays (z : Int) : Int × Int × Int :=
  (if cfdMonth (z + 719468) ≤ 2 then cfdMarchYear (z + 719468) + 1
   else cfdMarchYear (z + 719468),
   cfdMonth (z + 719468), cfdDay (z + 719468))

/-- Civil wall-clock time: the fields carried by the upstream timestamp
    format "YYYY-MM-DD HH:MM:SS". -/
structure WallTime where
  year : Int
  month : Int
  day : Int
  hour : Int
  minute : Int
  second : Int
deriving Repr, DecidableEq

/-- The field ranges guaranteed by Go's time.Parse for the fixed layout. -/
def validWall (w : WallTime) : Prop :=
  1 ≤ w.month ∧ w.month ≤ 12 ∧ 1 ≤ w.day ∧ w.day ≤ daysInMonth w.year w.month ∧
  0 ≤ w.hour ∧ w.hour ≤ 23 ∧ 0 ≤ w.minute ∧ w.minute ≤ 59 ∧
  0 ≤ w.second ∧ w.second ≤ 59

instance (w : WallTime) : Decidable (validWall w) := by
  unfold validWall; infer_instance

/-- Seconds since the Unix epoch of a wall-clock time read as UTC. -/
def wallSecs (w : WallTime) : Int :=
  86400 * daysFromCivil w.year w.month w.day
    + 3600 * w.hour + 60 * w.minute + w.second

def secsDays (t : Int) : Int := (t + 719468 * 86400) / 86400 - 719468

def secsSod (t : Int) : Int := (t + 719468 * 86400) % 86400

/-- Wall-clock time (read as UTC) of a count of seconds since the Unix
    epoch (valid for instants from year 1 on). -/
def civilFromSecs (t : Int) : WallTime :=
  ⟨(civilFromDays (secsDays t)).1, (civilFromDays (secsDays t)).2.1,
   (civilFromDays (secsDays t)).2.2,
   secsSod t / 3600, secsSod t % 3600 / 60, secsSod t % 60⟩

/-- Day-of-week index of a day count since the Unix epoch: Sunday = 0.
    The added constant is 719472·7 + 4, aligning Thursday 1970-01-01 to
    index 4. -/
def weekday (z : Int) : Int := (z + 5036308) % 7

/-- Day of the month of the last Sunday of a 31-day month. -/
def lastSundayDay (y m : Int) : Int := 31 - weekday (daysFromCivil y m 31)

/-- Instant (seconds since the Unix epoch) at which British Summer Time
    begins in year y: last Sunday of March, 01:00 UTC.  This is the
    Europe/London rule of the IANA database for 1996 onwards. -/
def bstStart (y : Int) : Int := 86400 * daysFromCivil y 3 (lastSundayDay y 3) + 3600

/-- Instant at which British Summer Time ends in year y: last Sunday of
    October, 01:00 UTC (Europe/London rule for 1996 onwards). -/
def bstEnd (y : Int) : Int := 86400 * daysFromCivil y 10 (lastSundayDay y 10) + 3600

/-- UTC offset (seconds) of the Europe/London zone at an instant:
    3600 during British Summer Time, 0 otherwise. -/
def londonOffset (t : Int) : Int :=
  if bstStart (civilFromSecs t).year ≤ t ∧ t < bstEnd (civilFromSecs t).year
  then 3600 else 0

/-- Instant denoted by a wall-clock time in Europe/London, following Go's
    time.Date: look up the zone offset at the wall time read as UTC; if
    that offset is nonzero, check whether subtracting it lands inside the
    same zone window, and if not re-look-up the offset at the shifted
    instant. -/
def toInstantLondon (w : WallTime) : Int :=
  if londonOffset (wallSecs w) = 0 then wallSecs w
  else if londonOffset (wallSecs w - londonOffset (wallSecs w))
      = londonOffset (wallSecs w) then
    wallSecs w - londonOffset (wallSecs w)
  else wallSecs w - londonOffset (wallSecs w - londonOffset (wallSecs w))

/-- Wall-clock reading of an instant in the Europe/London zone, as used by
    Go's Format on a time carrying that location. -/
def localWallLondon (t : Int) : WallTime := civilFromSecs (t + londonOffset t)

/-- Wall-clock times skipped by the spring-forward transition (01:00:00 to
    01:59:59 local on the last Sunday of March): they do not occur in
    Europe/London. -/
def springGap (w : WallTime) : Prop :=
  bstStart w.year ≤ wallSecs w ∧ wallSecs w < bstStart w.year + 3600

instance (w : WallTime) : Decidable (springGap w) := by
  unfold springGap; infer_instance

/-- Digit test on a character, as in Go's time package isDigit. -/
def isDig (c : Char) : Bool := 48 ≤ c.toNat && c.toNat ≤ 57

/-- Numeric value of a digit character. -/
def digVal (c : Char) : Nat := c.toNat - 48

/-- Digit character of a value below 10. -/
def digitChar (n : Nat) : Char := Char.ofNat (48 + n)

/-- Go's getnum with fixed = true: exactly two digits. -/
def getnum2 : List Char → Option (Nat × List Char)
  | a :: b :: rest =>
    if isDig a && isDig b then some (10 * digVal a + digVal b, rest) else none
  | _ => none

/-- Go's getnum with fixed = false: two digits when the second character is
    a digit, otherwise one. -/
def getnum1or2 : List Char → Option (Nat × List Char)
  | [] => none
  | [a] => if isDig a then some (digVal a, []) else none
  | a :: b :: rest =>
    if isDig a then
      (if isDig b then some (10 * digVal a + digVal b, rest)
       else some (digVal a, b :: rest))
    else none

/-- Go's stdLongYear parsing: four digits. -/
def getnum4 : List Char → Option (Nat × List Char)
  | a :: b :: c :: d :: rest =>
    if isDig a && isDig b && isDig c && isDig d then
      some (1000 * digVal a + 100 * digVal b + 10 * digVal c + digVal d, rest)
    else none
  | _ => none

/-- Consume one expected literal character of the layout. -/
def expectCh (c : Char) : List Char → Option (List Char)
  | x :: rest => if x = c then some rest else none
  | [] => none

/-- Go's time.Parse specialised to the layout "2006-01-02 15:04:05":
    four-digit year, two-digit zero-padded month/day/minute/second, hour of
    one or two digits (stdHour is parsed with fixed = false), single literal
    separators, no trailing text, with Go's range checks (month 1..12, hour
    ≤ 23, minute ≤ 59, second ≤ 59, day 1..daysIn(month, year)). -/
def parseLayout (l : List Char) : Option WallTime :=
  match getnum4 l with
  | none => none
  | some (y, l1) =>
  match expectCh '-' l1 with
  | none => none
  | some l2 =>
  match getnum2 l2 with
  | none => none
  | some (mo, l3) =>
  match expectCh '-' l3 with
  | none => none
  | some l4 =>
  match getnum2 l4 with
  | none => none
  | some (d, l5) =>
  match expectCh ' ' l5 with
  | none => none
  | some l6 =>
  match getnum1or2 l6 with
  | none => none
  | some (h, l7) =>
  match expectCh ':' l7 with
  | none => none
  | some l8 =>
  match getnum2 l8 with
  | none => none
  | some (mi, l9) =>
  match expectCh ':' l9 with
  | none => none
  | some l10 =>
  match getnum2 l10 with
  | none => none
  | some (s, l11) =>
    if l11 = [] ∧ 1 ≤ mo ∧ mo ≤ 12 ∧ h ≤ 23 ∧ mi ≤ 59 ∧ s ≤ 59 ∧
        1 ≤ d ∧ (d : Int) ≤ daysInMonth (y : Int) (mo : Int) then
      some ⟨(y : Int), (mo : Int), (d : Int), (h : Int), (mi : Int), (s : Int)⟩
    else none

/-- Two-digit zero-padded rendering, as Go's Format produces for the
    stdZero-style fields. -/
def pad2 (n : Int) : List Char :=
  [digitChar (n.toNat / 10 % 10), digitChar (n.toNat % 10)]

/-- Four-digit zero-padded rendering of the year. -/
def pad4 (n : Int) : List Char :=
  [digitChar (n.toNat / 1000 % 10), digitChar (n.toNat / 100 % 10),
   digitChar (n.toNat / 10 % 10), digitChar (n.toNat % 10)]

/-- Go's Format with the layout "2006-01-02 15:04:05" applied to a wall
    time: every numeric field is zero-padded to the layout width. -/
def renderWall (w : WallTime) : List Char :=
  pad4 w.year ++ '-' :: pad2 w.month ++ '-' :: pad2 w.day
    ++ ' ' :: pad2 w.hour ++ ':' :: pad2 w.minute ++ ':' :: pad2 w.second

/-- The variant input shape with a single-digit hour, also accepted by the
    parser (never produced by Format). -/
def renderShortHour (w : WallTime) : List Char :=
  pad4 w.year ++ '-' :: pad2 w.month ++ '-' :: pad2 w.day
    ++ ' ' :: digitChar w.hour.toNat :: ':' :: pad2 w.minute ++ ':' :: pad2 w.second

/-- strings.Trim(s, "\x22"): drop double-quote characters from both ends. -/
def trimQuotes (l : List Char) : List Char :=
  ((l.dropWhile (fun c => c = '"')).reverse.dropWhile (fun c => c = '"')).reverse

/-- chaosTime.UnmarshalJSON from the source: trim double quotes from the
    raw JSON bytes, then time.ParseInLocation with the "2006-01-02 15:04:05"
    layout in Europe/London; when loading the timezone database fails
    (tzAvailable = false) the process-local zone is used instead, modelled
    by the caller-supplied localResolve wall-to-instant rule. -/
def chaosTime.UnmarshalJSON (tzAvailable : Bool) (localResolve : WallTime → Int)
    (raw : List Char) : Except String Int :=
  match parseLayout (trimQuotes raw) with
  | none => Except.error "parsing time: cannot parse as layout 2006-01-02 15:04:05"
  | some w => Except.ok (if tzAvailable then toInstantLondon w else localResolve w)

/-- Formatting an instant back with the same layout in the same
    (Europe/London) zone. -/
def formatLayoutLondon (t : Int) : List Char := renderWall (localWallLondon t)

/-- JSON value model.  Numbers are modelled as integers, which covers every
    numeric value of the CHAOS payloads. -/
inductive Json where
  | null : Json
  | bool (b : Bool) : Json
  | num (n : Int) : Json
  | str (s : String) : Json
  | arr (elems : List Json) : Json
  | obj (fields : List (String × Json)) : Json
deriving Repr

/-- Body of an HTTP response as seen by json.Unmarshal: either bytes that
    form one valid JSON value, or bytes that do not. -/
inductive RawBody where
  | json (j : Json) : RawBody
  | invalid (text : String) : RawBody
deriving Repr

/-- Outcome of the HTTP exchange performed by API.makeRequest: the POST can
    fail (client.Do error, including the 10-second timeout), reading the
    response body can fail, or a response with a status code and a fully
    read body is obtained. -/
inductive HttpOutcome where
  | transportErr (msg : String) : HttpOutcome
  | readErr (msg : String) : HttpOutcome
  | response (status : Nat) (body : RawBody) : HttpOutcome
deriving Repr

/-- API.makeRequest from the source: propagate transport errors, wrap body
    read errors, reject any status other than 200 carrying the status code,
    and otherwise hand back the body bytes. -/
def API.makeRequest : HttpOutcome → Except String RawBody
  | .transportErr msg => .error msg
  | .readErr msg => .error ("error reading response body: " ++ msg)
  | .response status body =>
    if status ≠ 200 then .error ("bad response code: " ++ toString status)
    else .ok body

/-- BroadbandInfo record from the source.  QuotaTimestamp holds the instant
    decoded by chaosTime; the default is Go's zero time
    0001-01-01T00:00:00Z.  Go ints are modelled as Int. -/
structure BroadbandInfo where
  ID : Int := 0
  Login : String := ""
  Postcode : String := ""
  TXRate : Int := 0
  RXRate : Int := 0
  TXRateAdjusted : Int := 0
  QuotaMonthly : Int := 0
  QuotaRemaining : Int := 0
  QuotaTimestamp : Int := -62135596800
deriving Repr, DecidableEq

/-- BroadbandQuota record from the source. -/
structure BroadbandQuota where
  ID : Int := 0
  QuotaMonthly : Int := 0
  QuotaRemaining : Int := 0
  QuotaTimestamp : Int := -62135596800
deriving Repr, DecidableEq

/-- Digits of a JSON natural number literal: nonempty, all digits, and no
    leading zero (except "0" itself). -/
def parseJsonNat (l : List Char) : Option Nat :=
  match l with
  | [] => none
  | ['0'] => some 0
  | '0' :: _ => none
  | _ =>
    if l.all isDig then
      some (l.foldl (fun acc c => 10 * acc + digVal c) 0)
    else none

/-- A JSON integer literal, as accepted when decoding into a Go int. -/
def parseGoInt (s : String) : Option Int :=
  match s.toList with
  | '-' :: rest => (parseJsonNat rest).map (fun n => -(n : Int))
  | l => (parseJsonNat l).map (fun n => (n : Int))

/-- Decoding into an int field tagged ",string": the JSON value must be a
    string whose contents are an integer literal.  JSON null leaves the
    field untouched. -/
def decodeIntStringInto (cur : Int) : Json → Except String Int
  | .null => Except.ok cur
  | .str s =>
    match parseGoInt s with
    | some n => Except.ok n
    | none => Except.error ("invalid number literal " ++ s)
  | _ => Except.error "invalid use of string struct tag"

/-- Decoding into a plain string field. -/
def decodeStringInto (cur : String) : Json → Except String String
  | .null => Except.ok cur
  | .str s => Except.ok s
  | _ => Except.error "cannot unmarshal value into field of type string"

/-- Decoding into a plain int field (no ",string" tag): the JSON value must
    be a number. -/
def decodeIntInto (cur : Int) : Json → Except String Int
  | .null => Except.ok cur
  | .num n => Except.ok n
  | _ => Except.error "cannot unmarshal value into field of type int"

/-- Field update for a chaosTime field: json.Unmarshal hands the raw value
    bytes (for the CHAOS payloads, a quoted string) to
    chaosTime.UnmarshalJSON.  The deployment has the timezone database, so
    Europe/London is used; a non-string JSON value fails the layout parse
    exactly as its raw bytes would. -/
def decodeChaosTimeInto (_cur : Int) : Json → Except String Int
  | .str s => chaosTime.UnmarshalJSON true wallSecs ('"' :: s.toList ++ ['"'])
  | _ => Except.error "parsing time: cannot parse as layout 2006-01-02 15:04:05"

/-- One JSON object field applied to a BroadbandInfo record, per the struct
    tags of the source: id, tx_rate, rx_rate, tx_rate_adjusted,
    quota_monthly and quota_remaining are ",string" ints; login and
    postcode are strings; quota_timestamp is a chaosTime.  Unknown keys are
    ignored. -/
def applyInfoField (r : BroadbandInfo) (kv : String × Json) :
    Except String BroadbandInfo :=
  if kv.1 = "id" then (decodeIntStringInto r.ID kv.2).map (fun v => { r with ID := v })
  else if kv.1 = "login" then
    (decodeStringInto r.Login kv.2).map (fun v => { r with Login := v })
  else if kv.1 = "postcode" then
    (decodeStringInto r.Postcode kv.2).map (fun v => { r with Postcode := v })
  else if kv.1 = "tx_rate" then
    (decodeIntStringInto r.TXRate kv.2).map (fun v => { r with TXRate := v })
  else if kv.1 = "rx_rate" then
    (decodeIntStringInto r.RXRate kv.2).map (fun v => { r with RXRate := v })
  else if kv.1 = "tx_rate_adjusted" then
    (decodeIntStringInto r.TXRateAdjusted kv.2).map
      (fun v => { r with TXRateAdjusted := v })
  else if kv.1 = "quota_monthly" then
    (decodeIntStringInto r.QuotaMonthly kv.2).map
      (fun v => { r with QuotaMonthly := v })
  else if kv.1 = "quota_remaining" then
    (decodeIntStringInto r.QuotaRemaining kv.2).map
      (fun v => { r with QuotaRemaining := v })
  else if kv.1 = "quota_timestamp" then
    (decodeChaosTimeInto r.QuotaTimestamp kv.2).map
      (fun v => { r with QuotaTimestamp := v })
  else Except.ok r

/-- json.Unmarshal of one array element into a BroadbandInfo. -/
def decodeBroadbandInfo : Json → Except String BroadbandInfo
  | .null => Except.ok {}
  | .obj fields => fields.foldlM applyInfoField {}
  | _ => Except.error "cannot unmarshal value into BroadbandInfo"

/-- json.Unmarshal into the []BroadbandInfo slice field. -/
def decodeInfoList (cur : List BroadbandInfo) :
    Json → Except String (List BroadbandInfo)
  | .null => Except.ok cur
  | .arr elems => elems.mapM decodeBroadbandInfo
  | _ => Except.error "cannot unmarshal value into slice"

/-- The anonymous response envelope of API.BroadbandInfo: a data array
    under "info" and an error string. -/
structure InfoEnvelope where
  info : List BroadbandInfo := []
  error : String := ""
deriving Repr, DecidableEq

def applyInfoEnvField (r : InfoEnvelope) (kv : String × Json) :
    Except String InfoEnvelope :=
  if kv.1 = "info" then
    (decodeInfoList r.info kv.2).map (fun v => { r with info := v })
  else if kv.1 = "error" then
    (decodeStringInto r.error kv.2).map (fun v => { r with error := v })
  else Except.ok r

def decodeInfoEnvelope : Json → Except String InfoEnvelope
  | .null => Except.ok {}
  | .obj fields => fields.foldlM applyInfoEnvField {}
  | _ => Except.error "cannot unmarshal value into envelope"

/-- json.Unmarshal of the response body into the info envelope. -/
def unmarshalInfo : RawBody → Except String InfoEnvelope
  | .invalid _ => Except.error "invalid character in body"
  | .json j => decodeInfoEnvelope j

/-- API.BroadbandInfo from the source: make the request, decode the
    envelope (wrapping decode failures), fail with the envelope's error
    string when it is non-empty, and otherwise return the records. -/
def API.BroadbandInfo (o : HttpOutcome) : Except String (List BroadbandInfo) :=
  match API.makeRequest o with
  | .error e => Except.error e
  | .ok body =>
    match unmarshalInfo body with
    | .error e => Except.error ("BroadbandInfo JSON decode: " ++ e)
    | .ok r => if r.error ≠ "" then Except.error r.error else Except.ok r.info

/-- One JSON object field applied to a BroadbandQuota record, per the
    struct tags of the source: id and quota_remaining are ",string" ints;
    quota_monthly has no ",string" option and is a plain int; the ",string"
    option on quota_timestamp is ignored by encoding/json for a type with a
    custom Unmarshaler. -/
def applyQuotaField (r : BroadbandQuota) (kv : String × Json) :
    Except String BroadbandQuota :=
  if kv.1 = "id" then (decodeIntStringInto r.ID kv.2).map (fun v => { r with ID := v })
  else if kv.1 = "quota_monthly" then
    (decodeIntInto r.QuotaMonthly kv.2).map (fun v => { r with QuotaMonthly := v })
  else if kv.1 = "quota_remaining" then
    (decodeIntStringInto r.QuotaRemaining kv.2).map
      (fun v => { r with QuotaRemaining := v })
  else if kv.1 = "quota_timestamp" then
    (decodeChaosTimeInto r.QuotaTimestamp kv.2).map
      (fun v => { r with QuotaTimestamp := v })
  else Except.ok r

def decodeBroadbandQuota : Json → Except String BroadbandQuota
  | .null => Except.ok {}
  | .obj fields => fields.foldlM applyQuotaField {}
  | _ => Except.error "cannot unmarshal value into BroadbandQuota"

def decodeQuotaList (cur : List BroadbandQuota) :
    Json → Except String (List BroadbandQuota)
  | .null => Except.ok cur
  | .arr elems => elems.mapM decodeBroadbandQuota
  | _ => Except.error "cannot unmarshal value into slice"

/-- The anonymous response envelope of API.BroadbandQuota. -/
structure QuotaEnvelope where
  quota : List BroadbandQuota := []
  error : String := ""
deriving Repr, DecidableEq

def applyQuotaEnvField (r : QuotaEnvelope) (kv : String × Json) :
    Except String QuotaEnvelope :=
  if kv.1 = "quota" then
    (decodeQuotaList r.quota kv.2).map (fun v => { r with quota := v })
  else if kv.1 = "error" then
    (decodeStringInto r.error kv.2).map (fun v => { r with error := v })
  else Except.ok r

def decodeQuotaEnvelope : Json → Except String QuotaEnvelope
  | .null => Except.ok {}
  | .obj fields => fields.foldlM applyQuotaEnvField {}
  | _ => Except.error "cannot unmarshal value into envelope"

def unmarshalQuota : RawBody → Except String QuotaEnvelope
  | .invalid _ => Except.error "invalid character in body"
  | .json j => decodeQuotaEnvelope j

/-- API.BroadbandQuota from the source. -/
def API.BroadbandQuota (o : HttpOutcome) : Except String (List BroadbandQuota) :=
  match API.makeRequest o with
  | .error e => Except.error e
  | .ok body =>
    match unmarshalQuota body with
    | .error e => Except.error ("BroadbandQuota JSON decode: " ++ e)
    | .ok r => if r.error ≠ "" then Except.error r.error else Except.ok r.quota

inductive MetricKind where
  | gauge : MetricKind
  | counter : MetricKind
deriving Repr, DecidableEq

/-- One emitted metric sample: the metric name, its kind, its value
    (float64 of a Go int, exact for the modelled magnitudes) and the
    line_id label (strconv.Itoa of the line ID). -/
structure Sample where
  name : String
  kind : MetricKind
  value : Int
  lineID : String
deriving Repr, DecidableEq

/-- The four samples emitted for one line by the Collect loop body, in
    source order. -/
def lineSamples (line : BroadbandInfo) : List Sample :=
  [⟨"aaisp_broadband_quota_remaining", MetricKind.gauge,
      line.QuotaRemaining, toString line.ID⟩,
   ⟨"aaisp_broadband_quota_total", MetricKind.counter,
      line.QuotaMonthly, toString line.ID⟩,
   ⟨"aaisp_broadband_tx_rate", MetricKind.gauge,
      line.TXRate, toString line.ID⟩,
   ⟨"aaisp_broadband_rx_rate", MetricKind.gauge,
      line.RXRate, toString line.ID⟩]

/-- The Collect loop over the returned lines, in response order. -/
def emitLineSamples : List BroadbandInfo → List Sample
  | [] => []
  | line :: rest => lineSamples line ++ emitLineSamples rest

inductive LogLevel where
  | debug : LogLevel
  | info : LogLevel
  | fatal : LogLevel
deriving Repr, DecidableEq

structure LogEvent where
  level : LogLevel
  msg : String
  err : Option String
deriving Repr, DecidableEq

/-- Observable outcome of one broadbandCollector.Collect call: the value
    written to the aaisp_scrape_success gauge, the line samples sent on the
    channel, and the log event, if any. -/
structure CollectOutput where
  scrapeSuccess : Int
  samples : List Sample
  logged : Option LogEvent
deriving Repr, DecidableEq

/-- broadbandCollector.Collect from the exporter, as a function of the
    BroadbandInfo fetch outcome: on error, log at debug, set the success
    gauge to 0 and emit nothing; on success, set the gauge to 1 and emit
    four samples per line.  Collect always returns: a fetch failure never
    terminates the process. -/
def broadbandCollector.Collect (fetch : Except String (List BroadbandInfo)) :
    CollectOutput :=
  match fetch with
  | .error e => ⟨0, [], some ⟨LogLevel.debug, "error getting broadband info", some e⟩⟩
  | .ok lines => ⟨1, emitLineSamples lines, none⟩

/-- Auth from the source (credentials for the CHAOS API). -/
structure Auth where
  AccountNumber : String := ""
  AccountPassword : String := ""
  ControlLogin : String := ""
  ControlPassword : String := ""
deriving Repr, DecidableEq

/-- What main does after parsing flags: log a fatal diagnostic and exit
    with a non-zero status (zerolog's Fatal calls os.Exit(1)), or proceed
    to bind the listen address with the constructed credentials. -/
inductive StartupAction where
  | fatalExit (msg : String) : StartupAction
  | bindListen (addr : String) (auth : Auth) : StartupAction
deriving Repr, DecidableEq

/-- The startup decision of main as a function of the two credential
    environment values and the listen flag.  os.Getenv yields "" for an
    absent variable, so absent and empty are identical. -/
def mainStartup (controlLogin controlPassword listenAddr : String) :
    StartupAction :=
  if controlLogin = "" ∧ controlPassword = "" then
    StartupAction.fatalExit
      "CHAOS_CONTROL_LOGIN and CHAOS_CONTROL_PASSWORD must be set in the environment"
  else if controlLogin = "" then
    StartupAction.fatalExit "CHAOS_CONTROL_LOGIN is not set"
  else if controlPassword = "" then
    StartupAction.fatalExit "CHAOS_CONTROL_PASSWORD is not set"
  else
    StartupAction.bindListen listenAddr
      { ControlLogin := controlLogin, ControlPassword := controlPassword }

theorem marchStart_mono (a b : Int) (_ha : 0 ≤ a) (hab : a ≤ b) :
    marchStart a ≤ marchStart b := by
  unfold marchStart; omega

/-- Identification of the March year containing a given nonnegative day
    count. -/
theorem cfdMarchYear_eq (y' doy : Int) (hy : 0 ≤ y') (h0 : 0 ≤ doy)
    (h365 : doy ≤ 365)
    (hlt : marchStart y' + doy < marchStart (y' + 1)) :
    cfdMarchYear (marchStart y' + doy) = y' := by
  have hs0 : 0 ≤ marchStart y' := by unfold marchStart; omega
  have h1 : y' - 1 ≤ (400 * (marchStart y' + doy)) / 146097 := by
    unfold marchStart at *; omega
  have h2 : (400 * (marchStart y' + doy)) / 146097 ≤ y' + 1 := by
    unfold marchStart at *; omega
  have hq0 : 0 ≤ (400 * (marchStart y' + doy)) / 146097 := by omega
  unfold cfdMarchYear
  split
  · -- the day count is below the start of the candidate year y0, so
    -- y0 = y' + 1 and the corrected answer y0 - 1 is y'
    rename_i hcase
    rcases le_or_lt ((400 * (marchStart y' + doy)) / 146097) y' with hle | hgt
    · have := marchStart_mono _ _ hq0 hle
      omega
    · omega
  · split
    · -- year y0 + 1 already starts at or before the day count, so
      -- y0 = y' - 1 and the corrected answer y0 + 1 is y'
      rename_i hc1 hc2
      rcases le_or_lt y' ((400 * (marchStart y' + doy)) / 146097) with hle | hgt
      · have := marchStart_mono (y' + 1) ((400 * (marchStart y' + doy)) / 146097 + 1)
          (by omega) (by omega)
        omega
      · omega
    · -- the day count lies inside candidate year y0, so y0 = y'
      rename_i hc1 hc2
      rcases lt_trichotomy ((400 * (marchStart y' + doy)) / 146097) y' with hlt2 | heq | hgt2
      · have := marchStart_mono ((400 * (marchStart y' + doy)) / 146097 + 1) y'
          (by omega) (by omega)
        omega
      · exact heq
      · have := marchStart_mono (y' + 1) ((400 * (marchStart y' + doy)) / 146097)
          (by omega) (by omega)
        omega

theorem civilFromDays_daysFromCivil (y m d : Int) (hy : 1 ≤ y)
    (hm1 : 1 ≤ m) (hm2 : m ≤ 12)
    (hd1 : 1 ≤ d) (hd2 : d ≤ daysInMonth y m) :
    civilFromDays (daysFromCivil y m d) = (y, m, d) := by
  unfold daysInMonth isLeap at hd2
  have key : cfdMarchYear (marchStart (marchYear y m) + marchDoy m d)
      = marchYear y m := by
    apply cfdMarchYear_eq
    · unfold marchYear; omega
    · unfold marchDoy marchMonthIdx
      interval_cases m <;> omega
    · unfold marchDoy marchMonthIdx at *
      interval_cases m <;> simp_all <;> omega
    · unfold marchYear marchDoy marchMonthIdx marchStart at *
      interval_cases m <;> simp_all <;> omega
  unfold civilFromDays daysFromCivil cfdDay cfdMonth cfdMp cfdDoy
  rw [show marchStart (marchYear y m) + marchDoy m d - 719468 + 719468
        = marchStart (marchYear y m) + marchDoy m d by omega]
  rw [key]
  unfold marchYear marchDoy marchMonthIdx at *
  interval_cases m <;> simp_all <;> omega

/-- Nonnegativity of the day count for dates from year 1 on. -/
theorem daysFromCivil_lb (y m d : Int) (hy : 1 ≤ y) (hm1 : 1 ≤ m)
    (hd1 : 1 ≤ d) : -719162 ≤ daysFromCivil y m d := by
  unfold daysFromCivil marchStart marchYear marchDoy marchMonthIdx
  omega

theorem civilFromSecs_wallSecs (w : WallTime) (hv : validWall w)
    (hy : 1 ≤ w.year) : civilFromSecs (wallSecs w) = w := by
  obtain ⟨y, mo, d, h, mi, s⟩ := w
  obtain ⟨h1, h2, h3, h4, h5, h6, h7, h8, h9, h10⟩ := hv
  simp only at h1 h2 h3 h4 h5 h6 h7 h8 h9 h10 hy
  have hlb := daysFromCivil_lb y mo d hy h1 h3
  have hD : secsDays (wallSecs ⟨y, mo, d, h, mi, s⟩) = daysFromCivil y mo d := by
    unfold secsDays wallSecs
    simp only
    omega
  have hS : secsSod (wallSecs ⟨y, mo, d, h, mi, s⟩) = 3600 * h + 60 * mi + s := by
    unfold secsSod wallSecs
    simp only
    omega
  have hinv := civilFromDays_daysFromCivil y mo d hy h1 h2 h3 h4
  unfold civilFromSecs
  rw [hD, hS, hinv]
  simp only [WallTime.mk.injEq]
  refine ⟨trivial, trivial, trivial, by omega, by omega, by omega⟩

theorem daysFromCivil_month_boundary (y m : Int) (_hy : 1 ≤ y) (hm : 2 ≤ m)
    (hm2 : m ≤ 12) :
    daysFromCivil y (m - 1) (daysInMonth y (m - 1)) = daysFromCivil y m 1 - 1 := by
  unfold daysFromCivil daysInMonth isLeap marchStart marchYear marchDoy marchMonthIdx
  interval_cases m <;> simp_all <;> omega

theorem prevHourWall (w : WallTime) (hv : validWall w) (hm : 2 ≤ w.month)
    (hy : 1 ≤ w.year) :
    ∃ w' : WallTime, validWall w' ∧ w'.year = w.year ∧
      wallSecs w' = wallSecs w - 3600 := by
  obtain ⟨y, mo, d, h, mi, s⟩ := w
  obtain ⟨h1, h2, h3, h4, h5, h6, h7, h8, h9, h10⟩ := hv
  simp only at h1 h2 h3 h4 h5 h6 h7 h8 h9 h10 hm hy
  rcases le_or_lt 1 h with hh | hh
  · -- the previous hour is on the same day
    refine ⟨⟨y, mo, d, h - 1, mi, s⟩, ?_, rfl, ?_⟩
    · unfold validWall
      dsimp only
      exact ⟨h1, h2, h3, h4, by omega, by omega, h7, h8, h9, h10⟩
    · unfold wallSecs
      dsimp only
      omega
  · rcases le_or_lt 2 d with hd | hd
    · -- midnight: the previous hour is 23:00 of the previous day
      refine ⟨⟨y, mo, d - 1, 23, mi, s⟩, ?_, rfl, ?_⟩
      · unfold validWall
        dsimp only
        exact ⟨h1, h2, by omega, by omega, by omega, by omega, h7, h8, h9, h10⟩
      · unfold wallSecs daysFromCivil marchStart marchYear marchDoy marchMonthIdx
        dsimp only
        omega
    · -- midnight on the first of the month: 23:00 of the last day of the
      -- previous month
      have hmono : daysFromCivil y (mo - 1) (daysInMonth y (mo - 1))
          = daysFromCivil y mo 1 - 1 :=
        daysFromCivil_month_boundary y mo hy hm h2
      have hdim : 1 ≤ daysInMonth y (mo - 1) ∧ daysInMonth y (mo - 1) ≤ 31 := by
        unfold daysInMonth isLeap
        split_ifs <;> omega
      refine ⟨⟨y, mo - 1, daysInMonth y (mo - 1), 23, mi, s⟩, ?_, rfl, ?_⟩
      · unfold validWall
        dsimp only
        exact ⟨by omega, by omega, by omega, le_refl _, by omega, by omega,
          h7, h8, h9, h10⟩
      · unfold wallSecs
        dsimp only
        have hd1 : d = 1 := by omega
        subst hd1
        rw [hmono]
        omega

/-- Bounds for the last-Sunday day of a 31-day month. -/
theorem lastSundayDay_bounds (y m : Int) (_h : -5036308 ≤ daysFromCivil y m 31) :
    25 ≤ lastSundayDay y m ∧ lastSundayDay y m ≤ 31 := by
  unfold lastSundayDay weekday
  omega

/-- A wall time at or after the BST transition instant (read as UTC) is in
    March or later. -/
theorem month_ge_three_of_bst (w : WallTime) (hv : validWall w)
    (hy : 1996 ≤ w.year) (hb : bstStart w.year ≤ wallSecs w) : 3 ≤ w.month := by
  obtain ⟨y, mo, d, h, mi, s⟩ := w
  obtain ⟨h1, h2, h3, h4, h5, h6, h7, h8, h9, h10⟩ := hv
  simp only at h1 h2 h3 h4 h5 h6 h7 h8 h9 h10 hy hb ⊢
  by_contra hlt
  have hlb := daysFromCivil_lb y 3 31 (by omega) (by omega) (by omega)
  have hsun := lastSundayDay_bounds y 3 (by omega)
  unfold bstStart wallSecs at hb
  unfold daysInMonth isLeap daysFromCivil marchStart marchYear marchDoy
    marchMonthIdx at *
  interval_cases mo <;> simp_all <;> omega

/-- Round-trip of Go's wall-to-instant resolution with the instant-to-wall
    reading, in Europe/London, for valid wall times from 1996 on that are
    not in the spring-forward gap. -/
theorem toInstantLondon_round (w : WallTime) (hv : validWall w)
    (hy : 1996 ≤ w.year) (hgap : ¬ springGap w) :
    localWallLondon (toInstantLondon w) = w := by
  have hu : civilFromSecs (wallSecs w) = w := civilFromSecs_wallSecs w hv (by omega)
  have hoffu : londonOffset (wallSecs w)
      = if bstStart w.year ≤ wallSecs w ∧ wallSecs w < bstEnd w.year
        then 3600 else 0 := by
    unfold londonOffset
    rw [hu]
  by_cases hbst : bstStart w.year ≤ wallSecs w ∧ wallSecs w < bstEnd w.year
  · -- the wall time read as UTC falls in the BST window
    have h36 : londonOffset (wallSecs w) = 3600 := by rw [hoffu, if_pos hbst]
    have hge : bstStart w.year + 3600 ≤ wallSecs w := by
      by_contra hcon
      exact hgap ⟨hbst.1, by omega⟩
    have hm3 : 3 ≤ w.month := month_ge_three_of_bst w hv hy hbst.1
    obtain ⟨w', hv', hy', hws'⟩ := prevHourWall w hv (by omega) (by omega)
    have hu' : civilFromSecs (wallSecs w - 3600) = w' := by
      rw [← hws']
      exact civilFromSecs_wallSecs w' hv' (by rw [hy']; omega)
    have hoff' : londonOffset (wallSecs w - 3600) = 3600 := by
      unfold londonOffset
      rw [hu', hy', if_pos ⟨by omega, by omega⟩]
    have hti : toInstantLondon w = wallSecs w - 3600 := by
      unfold toInstantLondon
      rw [h36, hoff']
      norm_num
    rw [hti]
    unfold localWallLondon
    rw [hoff', show wallSecs w - 3600 + 3600 = wallSecs w by omega]
    exact hu
  · -- GMT: the offset at the wall time read as UTC is zero
    have h0 : londonOffset (wallSecs w) = 0 := by rw [hoffu, if_neg hbst]
    have hti : toInstantLondon w = wallSecs w := by
      unfold toInstantLondon
      rw [h0]
      norm_num
    rw [hti]
    unfold localWallLondon
    rw [h0, show wallSecs w + 0 = wallSecs w by omega]
    exact hu

theorem isDig_le (c : Char) (h : isDig c = true) : digVal c ≤ 9 := by
  simp only [isDig, Bool.and_eq_true, decide_eq_true_eq] at h
  unfold digVal
  omega

theorem digitChar_digVal (c : Char) (h : isDig c = true) :
    digitChar (digVal c) = c := by
  simp only [isDig, Bool.and_eq_true, decide_eq_true_eq] at h
  unfold digitChar digVal
  rw [show 48 + (c.toNat - 48) = c.toNat by omega]
  exact Char.ofNat_toNat c

theorem getnum2_inv (l rest : List Char) (n : Nat)
    (h : getnum2 l = some (n, rest)) : n ≤ 99 ∧ l = pad2 (n : Int) ++ rest := by
  match l with
  | [] => cases h
  | [a] => cases h
  | a :: b :: t =>
    unfold getnum2 at h
    obtain ⟨hc, he⟩ := ite_some_none_eq_some.mp h
    simp only [Bool.and_eq_true] at hc
    injection he with hn hr
    have ha9 := isDig_le a hc.1
    have hb9 := isDig_le b hc.2
    subst hn hr
    refine ⟨by omega, ?_⟩
    unfold pad2
    rw [show ((10 * digVal a + digVal b : Nat) : Int).toNat
          = 10 * digVal a + digVal b by omega]
    rw [show (10 * digVal a + digVal b) / 10 % 10 = digVal a by omega]
    rw [show (10 * digVal a + digVal b) % 10 = digVal b by omega]
    rw [digitChar_digVal a hc.1, digitChar_digVal b hc.2]
    rfl

theorem getnum4_inv (l rest : List Char) (n : Nat)
    (h : getnum4 l = some (n, rest)) : n ≤ 9999 ∧ l = pad4 (n : Int) ++ rest := by
  match l with
  | [] => cases h
  | [a] => cases h
  | [a, b] => cases h
  | [a, b, c] => cases h
  | a :: b :: c :: d :: t =>
    unfold getnum4 at h
    obtain ⟨hc, he⟩ := ite_some_none_eq_some.mp h
    simp only [Bool.and_eq_true] at hc
    obtain ⟨⟨⟨hA, hB⟩, hC⟩, hD⟩ := hc
    injection he with hn hr
    have ha9 := isDig_le a hA
    have hb9 := isDig_le b hB
    have hcc9 := isDig_le c hC
    have hd9 := isDig_le d hD
    subst hn hr
    refine ⟨by omega, ?_⟩
    unfold pad4
    rw [show ((1000 * digVal a + 100 * digVal b + 10 * digVal c + digVal d : Nat) : Int).toNat
          = 1000 * digVal a + 100 * digVal b + 10 * digVal c + digVal d by omega]
    rw [show (1000 * digVal a + 100 * digVal b + 10 * digVal c + digVal d) / 1000 % 10
          = digVal a by omega]
    rw [show (1000 * digVal a + 100 * digVal b + 10 * digVal c + digVal d) / 100 % 10
          = digVal b by omega]
    rw [show (1000 * digVal a + 100 * digVal b + 10 * digVal c + digVal d) / 10 % 10
          = digVal c by omega]
    rw [show (1000 * digVal a + 100 * digVal b + 10 * digVal c + digVal d) % 10
          = digVal d by omega]
    rw [digitChar_digVal a hA, digitChar_digVal b hB,
      digitChar_digVal c hC, digitChar_digVal d hD]
    rfl

theorem getnum1or2_inv (l rest : List Char) (n : Nat)
    (h : getnum1or2 l = some (n, rest)) :
    (n ≤ 99 ∧ l = pad2 (n : Int) ++ rest) ∨ (n ≤ 9 ∧ l = digitChar n :: rest) := by
  match l with
  | [] => cases h
  | [a] =>
    simp only [getnum1or2] at h
    obtain ⟨hda, he⟩ := ite_some_none_eq_some.mp h
    injection he with hn hr
    subst hn hr
    right
    exact ⟨isDig_le a hda, by rw [digitChar_digVal a hda]⟩
  | a :: b :: t2 =>
    simp only [getnum1or2] at h
    by_cases hda : isDig a = true
    · rw [if_pos hda] at h
      by_cases hdb : isDig b = true
      · rw [if_pos hdb] at h
        injection h with he
        injection he with hn hr
        have ha9 := isDig_le a hda
        have hb9 := isDig_le b hdb
        subst hn hr
        left
        refine ⟨by omega, ?_⟩
        unfold pad2
        rw [show ((10 * digVal a + digVal b : Nat) : Int).toNat
              = 10 * digVal a + digVal b by omega]
        rw [show (10 * digVal a + digVal b) / 10 % 10 = digVal a by omega]
        rw [show (10 * digVal a + digVal b) % 10 = digVal b by omega]
        rw [digitChar_digVal a hda, digitChar_digVal b hdb]
        rfl
      · rw [if_neg hdb] at h
        injection h with he
        injection he with hn hr
        subst hn hr
        right
        exact ⟨isDig_le a hda, by rw [digitChar_digVal a hda]⟩
    · rw [if_neg hda] at h
      cases h

theorem expectCh_inv (c : Char) (l rest : List Char)
    (h : expectCh c l = some rest) : l = c :: rest := by
  match l with
  | [] => cases h
  | x :: t =>
    unfold expectCh at h
    obtain ⟨hc, he⟩ := ite_some_none_eq_some.mp h
    subst hc he
    rfl

/-- Inversion of the layout parser: an accepted input is exactly the
    zero-padded rendering of the parsed wall time, or its variant with a
    single-digit hour; and the parsed fields are within Go's ranges. -/
theorem parseLayout_inv (l : List Char) (w : WallTime)
    (hp : parseLayout l = some w) :
    validWall w ∧ 0 ≤ w.year ∧ w.year ≤ 9999 ∧
      (l = renderWall w ∨ (w.hour ≤ 9 ∧ l = renderShortHour w)) := by
  unfold parseLayout at hp
  split at hp
  · exact Option.noConfusion hp
  rename_i y l1 h1
  split at hp
  · exact Option.noConfusion hp
  rename_i l2 h2
  split at hp
  · exact Option.noConfusion hp
  rename_i mo l3 h3
  split at hp
  · exact Option.noConfusion hp
  rename_i l4 h4
  split at hp
  · exact Option.noConfusion hp
  rename_i d l5 h5
  split at hp
  · exact Option.noConfusion hp
  rename_i l6 h6
  split at hp
  · exact Option.noConfusion hp
  rename_i h l7 h7
  split at hp
  · exact Option.noConfusion hp
  rename_i l8 h8
  split at hp
  · exact Option.noConfusion hp
  rename_i mi l9 h9
  split at hp
  · exact Option.noConfusion hp
  rename_i l10 h10
  split at hp
  · exact Option.noConfusion hp
  rename_i s l11 h11
  obtain ⟨⟨hnil, hmo1, hmo2, hh23, hmi59, hs59, hd1, hd2⟩, hw⟩ :=
    ite_some_none_eq_some.mp hp
  subst hw
  subst hnil
  obtain ⟨hy4, hly⟩ := getnum4_inv l l1 y h1
  have he1 := expectCh_inv '-' l1 l2 h2
  obtain ⟨hmo99, hlmo⟩ := getnum2_inv l2 l3 mo h3
  have he2 := expectCh_inv '-' l3 l4 h4
  obtain ⟨hd99, hld⟩ := getnum2_inv l4 l5 d h5
  have he3 := expectCh_inv ' ' l5 l6 h6
  have hhour := getnum1or2_inv l6 l7 h h7
  have he4 := expectCh_inv ':' l7 l8 h8
  obtain ⟨hmi99, hlmi⟩ := getnum2_inv l8 l9 mi h9
  have he5 := expectCh_inv ':' l9 l10 h10
  obtain ⟨hs99, hls⟩ := getnum2_inv l10 [] s h11
  refine ⟨?_, by dsimp only; omega, by dsimp only; omega, ?_⟩
  · unfold validWall
    dsimp only
    refine ⟨by omega, by omega, by omega, hd2, by omega, by omega,
      by omega, by omega, by omega, by omega⟩
  · subst hly he1 hlmo he2 hld he3 he4 hlmi he5 hls
    rcases hhour with ⟨hh99, hlh⟩ | ⟨hh9, hlh⟩
    · left
      subst hlh
      unfold renderWall
      dsimp only
      simp only [List.cons_append, List.append_assoc, List.append_nil]
    · right
      refine ⟨by dsimp only; omega, ?_⟩
      subst hlh
      unfold renderShortHour
      dsimp only
      rw [show ((h : Int)).toNat = h by omega]
      simp only [List.cons_append, List.append_assoc, List.append_nil]

theorem renderWall_length (w : WallTime) : (renderWall w).length = 19 := by
  simp [renderWall, pad4, pad2]

theorem renderShortHour_length (w : WallTime) :
    (renderShortHour w).length = 18 := by
  simp [renderShortHour, pad4, pad2]

/-- Parse-then-format round-trip for the upstream timestamp layout in
    Europe/London, for fully zero-padded inputs (length 19) denoting wall
    times from 1996 on that are not in the spring-forward gap. -/
theorem parse_format_roundtrip (l : List Char) (w : WallTime)
    (hp : parseLayout l = some w) (hlen : l.length = 19)
    (hy : 1996 ≤ w.year) (hgap : ¬ springGap w) :
    formatLayoutLondon (toInstantLondon w) = l := by
  obtain ⟨hv, hy0, hy9, hshape⟩ := parseLayout_inv l w hp
  rcases hshape with hl | ⟨hh9, hl⟩
  · have hr := toInstantLondon_round w hv hy hgap
    unfold formatLayoutLondon
    rw [hr]
    exact hl.symm
  · exfalso
    rw [hl, renderShortHour_length] at hlen
    omega

/-- Pipeline reduction: on a 200 response with a JSON body, BroadbandInfo
    is decided by the envelope decode. -/
theorem broadbandInfo_response200 (j : Json) :
    API.BroadbandInfo (HttpOutcome.response 200 (RawBody.json j)) =
      match decodeInfoEnvelope j with
      | .error e => Except.error ("BroadbandInfo JSON decode: " ++ e)
      | .ok r => if r.error ≠ "" then Except.error r.error else Except.ok r.info :=
  rfl

/-- Pipeline reduction for the quota endpoint. -/
theorem broadbandQuota_response200 (j : Json) :
    API.BroadbandQuota (HttpOutcome.response 200 (RawBody.json j)) =
      match decodeQuotaEnvelope j with
      | .error e => Except.error ("BroadbandQuota JSON decode: " ++ e)
      | .ok r => if r.error ≠ "" then Except.error r.error else Except.ok r.quota :=
  rfl

/-- Claim C5: for every fetchInfo/fetchQuota call whose HTTP response
    status is not 200, the client returns no records and an error carrying
    the exact status code, even if the response body is valid JSON. -/
theorem C5_non200_returns_status_error (st : Nat) (body : RawBody)
    (hst : st ≠ 200) :
    API.BroadbandInfo (HttpOutcome.response st body)
        = Except.error ("bad response code: " ++ toString st) ∧
      API.BroadbandQuota (HttpOutcome.response st body)
        = Except.error ("bad response code: " ++ toString st) := by
  have hmr : API.makeRequest (HttpOutcome.response st body)
      = Except.error ("bad response code: " ++ toString st) := by
    simp only [API.makeRequest]
    rw [if_pos hst]
  constructor
  · unfold API.BroadbandInfo
    rw [hmr]
  · unfold API.BroadbandQuota
    rw [hmr]

/-- Witness for C5: status 500 with a well-formed JSON body. -/
theorem C5_witness :
    API.BroadbandInfo (HttpOutcome.response 500 (RawBody.json (Json.obj [])))
        = Except.error "bad response code: 500" ∧
      API.BroadbandQuota (HttpOutcome.response 500 (RawBody.json (Json.obj [])))
        = Except.error "bad response code: 500" :=
  C5_non200_returns_status_error 500 (RawBody.json (Json.obj [])) (by decide)

/-- Claim C6: for every HTTP-200 response whose body is a well-formed
    envelope with an empty error string, fetchInfo returns exactly the
    decoded records and no error. -/
theorem C6_success_returns_decoded_records (j : Json) (env : InfoEnvelope)
    (h : decodeInfoEnvelope j = Except.ok env) (he : env.error = "") :
    API.BroadbandInfo (HttpOutcome.response 200 (RawBody.json j))
      = Except.ok env.info := by
  rw [broadbandInfo_response200, h]
  show (if env.error ≠ "" then Except.error env.error else Except.ok env.info)
    = Except.ok env.info
  rw [he]
  simp

/-- Witness for C6: an envelope with one full record, including a
    timestamp decoded through chaosTime in Europe/London. -/
theorem C6_witness :
    API.BroadbandInfo (HttpOutcome.response 200 (RawBody.json (Json.obj
      [("info", Json.arr [Json.obj
          [("id", Json.str "12345"),
           ("login", Json.str "xyz12@a"),
           ("postcode", Json.str "AB1 2CD"),
           ("tx_rate", Json.str "80000000"),
           ("rx_rate", Json.str "20000000"),
           ("tx_rate_adjusted", Json.str "79000000"),
           ("quota_monthly", Json.str "1000000000000"),
           ("quota_remaining", Json.str "900000000000"),
           ("quota_timestamp", Json.str "2023-06-15 12:00:00")]]),
       ("error", Json.str "")])))
      = Except.ok [⟨12345, "xyz12@a", "AB1 2CD", 80000000, 20000000,
          79000000, 1000000000000, 900000000000, 1686826800⟩] :=
  C6_success_returns_decoded_records _
    ⟨[⟨12345, "xyz12@a", "AB1 2CD", 80000000, 20000000, 79000000,
        1000000000000, 900000000000, 1686826800⟩], ""⟩
    rfl rfl

/-- Claim C10: an HTTP-200 body "\x7b\x7d" (no data array, no error field)
    decodes to the zero envelope, so fetchInfo returns an empty record list
    with no error, and Collect reports scrape success 1 with zero
    line-scoped samples. -/
theorem C10_empty_object_is_success :
    API.BroadbandInfo (HttpOutcome.response 200 (RawBody.json (Json.obj [])))
        = Except.ok [] ∧
      broadbandCollector.Collect
          (API.BroadbandInfo (HttpOutcome.response 200 (RawBody.json (Json.obj []))))
        = ⟨1, [], none⟩ :=
  ⟨rfl, rfl⟩

/-- Counterexample to claim C1 as stated: on a status-500 response whose
    envelope carries the non-empty error string "boom", the client reports
    the status error, not the envelope error — the status check precedes
    body decoding, so the error field does not take precedence over a
    non-200 status. -/
theorem C1_counterexample :
    decodeInfoEnvelope (Json.obj [("error", Json.str "boom")])
        = Except.ok ⟨[], "boom"⟩ ∧
      API.BroadbandInfo (HttpOutcome.response 500
          (RawBody.json (Json.obj [("error", Json.str "boom")])))
        = Except.error "bad response code: 500" ∧
      Except.error (α := List BroadbandInfo) "bad response code: 500"
        ≠ Except.error "boom" := by
  refine ⟨rfl, rfl, ?_⟩
  intro h
  injection h with h
  simp at h

/-- Claim C1 (amended): for every HTTP-200 response whose envelope carries
    a non-empty error string, fetchInfo and fetchQuota return no records
    and an error equal to that string — the precedence over the HTTP status
    holds only for status 200, since a non-200 status fails first. -/
theorem C1_error_string_on_status200 (j jq : Json)
    (env : InfoEnvelope) (envq : QuotaEnvelope)
    (hi : decodeInfoEnvelope j = Except.ok env) (hie : env.error ≠ "")
    (hq : decodeQuotaEnvelope jq = Except.ok envq) (hqe : envq.error ≠ "") :
    API.BroadbandInfo (HttpOutcome.response 200 (RawBody.json j))
        = Except.error env.error ∧
      API.BroadbandQuota (HttpOutcome.response 200 (RawBody.json jq))
        = Except.error envq.error := by
  constructor
  · rw [broadbandInfo_response200, hi]
    show (if env.error ≠ "" then Except.error env.error else Except.ok env.info)
      = Except.error env.error
    rw [if_pos hie]
  · rw [broadbandQuota_response200, hq]
    show (if envq.error ≠ "" then Except.error envq.error else Except.ok envq.quota)
      = Except.error envq.error
    rw [if_pos hqe]

/-- Witness for the amended C1. -/
theorem C1_amended_witness :
    API.BroadbandInfo (HttpOutcome.response 200
        (RawBody.json (Json.obj [("error", Json.str "boom")])))
      = Except.error "boom" ∧
    API.BroadbandQuota (HttpOutcome.response 200
        (RawBody.json (Json.obj [("error", Json.str "boom")])))
      = Except.error "boom" :=
  C1_error_string_on_status200 _ _ ⟨[], "boom"⟩ ⟨[], "boom"⟩ rfl
    (by simp) rfl (by simp)

/-- Claim C7 (the code violates it): the documented upstream envelope
    carries quota_monthly as a numeric string, which the BroadbandInfo
    decoder accepts (",string" tag) but the BroadbandQuota decoder rejects
    (its quota_monthly field has no ",string" option), so fetchQuota fails
    with a decode error on the documented shape. -/
theorem C7_quota_monthly_string_rejected :
    API.BroadbandQuota (HttpOutcome.response 200 (RawBody.json (Json.obj
      [("quota", Json.arr [Json.obj
          [("id", Json.str "12345"),
           ("quota_monthly", Json.str "1000000000000"),
           ("quota_remaining", Json.str "900000000000"),
           ("quota_timestamp", Json.str "2023-06-15 12:00:00")]]),
       ("error", Json.str "")])))
      = Except.error
          "BroadbandQuota JSON decode: cannot unmarshal value into field of type int" ∧
    API.BroadbandInfo (HttpOutcome.response 200 (RawBody.json (Json.obj
      [("info", Json.arr [Json.obj
          [("id", Json.str "12345"),
           ("quota_monthly", Json.str "1000000000000"),
           ("quota_remaining", Json.str "900000000000"),
           ("quota_timestamp", Json.str "2023-06-15 12:00:00")]]),
       ("error", Json.str "")])))
      = Except.ok [⟨12345, "", "", 0, 0, 0, 1000000000000, 900000000000,
          1686826800⟩] :=
  ⟨rfl, rfl⟩

theorem emitLineSamples_length (lines : List BroadbandInfo) :
    (emitLineSamples lines).length = 4 * lines.length := by
  induction lines with
  | nil => rfl
  | cons line rest ih =>
    simp [emitLineSamples, lineSamples, ih]
    omega

theorem emitLineSamples_eq_flatMap (lines : List BroadbandInfo) :
    emitLineSamples lines = lines.flatMap lineSamples := by
  induction lines with
  | nil => rfl
  | cons line rest ih =>
    simp [emitLineSamples, ih, List.flatMap]

/-- Claim C3: for every successful fetch returning N line records, one
    Collect call sets the scrape-success gauge to 1, logs nothing, and
    emits exactly 4N line-scoped samples — the concatenation, in upstream
    response order, of each line's four samples (quota-remaining,
    quota-total, tx-rate, rx-rate, labelled with the line ID); duplicate or
    unsorted identifiers are preserved as-is since the line list is
    arbitrary. -/
theorem C3_collect_success (o : HttpOutcome) (lines : List BroadbandInfo)
    (h : API.BroadbandInfo o = Except.ok lines) :
    (broadbandCollector.Collect (API.BroadbandInfo o)).scrapeSuccess = 1 ∧
    (broadbandCollector.Collect (API.BroadbandInfo o)).samples.length
        = 4 * lines.length ∧
    (broadbandCollector.Collect (API.BroadbandInfo o)).samples
        = lines.flatMap lineSamples ∧
    (broadbandCollector.Collect (API.BroadbandInfo o)).logged = none := by
  rw [h]
  exact ⟨rfl, emitLineSamples_length lines, emitLineSamples_eq_flatMap lines, rfl⟩

/-- Witness for C3: two records with the same line ID — both are kept and
    eight samples come out. -/
theorem C3_witness :
    (broadbandCollector.Collect (API.BroadbandInfo (HttpOutcome.response 200
        (RawBody.json (Json.obj [("info", Json.arr
          [Json.obj [("id", Json.str "7")],
           Json.obj [("id", Json.str "7")]])]))))).scrapeSuccess = 1 ∧
    (broadbandCollector.Collect (API.BroadbandInfo (HttpOutcome.response 200
        (RawBody.json (Json.obj [("info", Json.arr
          [Json.obj [("id", Json.str "7")],
           Json.obj [("id", Json.str "7")]])]))))).samples.length
        = 4 * [({ ID := 7 } : BroadbandInfo), { ID := 7 }].length ∧
    (broadbandCollector.Collect (API.BroadbandInfo (HttpOutcome.response 200
        (RawBody.json (Json.obj [("info", Json.arr
          [Json.obj [("id", Json.str "7")],
           Json.obj [("id", Json.str "7")]])]))))).samples
        = [({ ID := 7 } : BroadbandInfo), { ID := 7 }].flatMap lineSamples ∧
    (broadbandCollector.Collect (API.BroadbandInfo (HttpOutcome.response 200
        (RawBody.json (Json.obj [("info", Json.arr
          [Json.obj [("id", Json.str "7")],
           Json.obj [("id", Json.str "7")]])]))))).logged = none :=
  C3_collect_success _ [{ ID := 7 }, { ID := 7 }] rfl

/-- Claim C4: for every fetch failure, one Collect call sets the
    scrape-success gauge to 0, emits zero line-scoped samples, and logs the
    error at debug severity; Collect returns normally, so the process does
    not terminate and the only recovery is the next scrape. -/
theorem C4_collect_failure (o : HttpOutcome) (e : String)
    (h : API.BroadbandInfo o = Except.error e) :
    broadbandCollector.Collect (API.BroadbandInfo o)
      = ⟨0, [], some ⟨LogLevel.debug, "error getting broadband info", some e⟩⟩ := by
  rw [h]
  rfl

/-- Witness for C4: a transport failure. -/
theorem C4_witness :
    broadbandCollector.Collect (API.BroadbandInfo
        (HttpOutcome.transportErr "dial tcp: i/o timeout"))
      = ⟨0, [], some ⟨LogLevel.debug, "error getting broadband info",
          some "dial tcp: i/o timeout"⟩⟩ :=
  C4_collect_failure _ "dial tcp: i/o timeout" rfl

/-- Claim C9: if either credential environment value is absent (os.Getenv
    yields "") at startup, main logs a fatal diagnostic and exits with a
    non-zero status before the listener is bound; with both present, it
    proceeds to bind the listen address with the control credentials. -/
theorem C9_startup_credentials (l p a : String) :
    ((l = "" ∨ p = "") → ∃ m, mainStartup l p a = StartupAction.fatalExit m) ∧
    (l ≠ "" → p ≠ "" → mainStartup l p a
      = StartupAction.bindListen a
          { ControlLogin := l, ControlPassword := p }) := by
  unfold mainStartup
  constructor
  · intro h
    split_ifs with h1 h2 h3
    · exact ⟨_, rfl⟩
    · exact ⟨_, rfl⟩
    · exact ⟨_, rfl⟩
    · exact absurd h (by tauto)
  · intro hl hp
    have h1 : ¬(l = "" ∧ p = "") := by tauto
    rw [if_neg h1, if_neg hl, if_neg hp]

/-- Witness for C9: both missing is fatal; both present binds. -/
theorem C9_witness :
    (∃ m, mainStartup "" "" ":8080" = StartupAction.fatalExit m) ∧
      mainStartup "ab123" "secret" ":8080"
        = StartupAction.bindListen ":8080"
            { ControlLogin := "ab123", ControlPassword := "secret" } :=
  ⟨(C9_startup_credentials "" "" ":8080").1 (Or.inl rfl),
   (C9_startup_credentials "ab123" "secret" ":8080").2 (by simp) (by simp)⟩

/-- Claim C2: chaosTime.UnmarshalJSON interprets an accepted timestamp
    string as "YYYY-MM-DD HH:MM:SS" in Europe/London (with DST rules),
    falling back to the process-local zone only when the timezone database
    is unavailable; in particular "2023-06-15 12:00:00" denotes
    2023-06-15T11:00:00Z (civil noon at UTC+1, British Summer Time) and
    "2023-01-15 12:00:00" denotes 2023-01-15T12:00:00Z (UTC+0). -/
theorem C2_uk_local_interpretation (raw : List Char)
    (localResolve : WallTime → Int) (w : WallTime)
    (hp : parseLayout (trimQuotes raw) = some w) :
    chaosTime.UnmarshalJSON true localResolve raw
        = Except.ok (toInstantLondon w) ∧
      chaosTime.UnmarshalJSON false localResolve raw
        = Except.ok (localResolve w) ∧
      toInstantLondon ⟨2023, 6, 15, 12, 0, 0⟩ = 1686826800 ∧
      toInstantLondon ⟨2023, 1, 15, 12, 0, 0⟩ = 1673784000 ∧
      1686826800 = wallSecs ⟨2023, 6, 15, 12, 0, 0⟩ - 3600 ∧
      1673784000 = wallSecs ⟨2023, 1, 15, 12, 0, 0⟩ := by
  unfold chaosTime.UnmarshalJSON
  rw [hp]
  exact ⟨rfl, rfl, by decide, by decide, by decide, by decide⟩

/-- Witness for C2: the quoted June timestamp as raw JSON bytes. -/
theorem C2_witness :
    chaosTime.UnmarshalJSON true wallSecs
        ('"' :: "2023-06-15 12:00:00".toList ++ ['"'])
      = Except.ok (toInstantLondon ⟨2023, 6, 15, 12, 0, 0⟩) :=
  (C2_uk_local_interpretation _ wallSecs ⟨2023, 6, 15, 12, 0, 0⟩ (by decide)).1

/-- Counterexample to claim C8 as stated: the parser also accepts
    single-digit hours, which format back zero-padded; and a wall time in
    the spring-forward gap (2023-03-26 01:30:00 does not exist in
    Europe/London) resolves to an instant that formats as 02:30:00.  In
    both cases the round trip changes the string. -/
theorem C8_counterexample :
    parseLayout ("2023-06-15 2:00:00".toList) = some ⟨2023, 6, 15, 2, 0, 0⟩ ∧
      formatLayoutLondon (toInstantLondon ⟨2023, 6, 15, 2, 0, 0⟩)
        = "2023-06-15 02:00:00".toList ∧
      "2023-06-15 02:00:00".toList ≠ "2023-06-15 2:00:00".toList ∧
      parseLayout ("2023-03-26 01:30:00".toList)
        = some ⟨2023, 3, 26, 1, 30, 0⟩ ∧
      formatLayoutLondon (toInstantLondon ⟨2023, 3, 26, 1, 30, 0⟩)
        = "2023-03-26 02:30:00".toList ∧
      "2023-03-26 02:30:00".toList ≠ "2023-03-26 01:30:00".toList := by
  refine ⟨by decide, by decide, by decide, by decide, by decide, by decide⟩

/-- Claim C8 (amended): for every string accepted by the upstream-timestamp
    parser that is fully zero-padded (length 19) and denotes a wall time
    from 1996 on (where the modelled Europe/London rule applies) outside
    the spring-forward gap, formatting the parsed instant back with the
    same layout in the same zone reproduces the original string. -/
theorem C8_roundtrip_padded (l : List Char) (w : WallTime)
    (hp : parseLayout l = some w) (hlen : l.length = 19)
    (hy : 1996 ≤ w.year) (hgap : ¬ springGap w) :
    formatLayoutLondon (toInstantLondon w) = l :=
  parse_format_roundtrip l w hp hlen hy hgap

/-- Witness for the amended C8. -/
theorem C8_witness :
    formatLayoutLondon (toInstantLondon ⟨2023, 6, 15, 12, 0, 0⟩)
      = "2023-06-15 12:00:00".toList :=
  C8_roundtrip_padded ("2023-06-15 12:00:00".toList) ⟨2023, 6, 15, 12, 0, 0⟩
    (by decide) (by decide) (by decide) (by decide)
